import Mathlib

/-!
Shallow embedding of the workspace analytics engine
(`src/analytics.py`, `config.py` of NotionUsageInsights).

Pages and users are in-memory records; timestamps are modelled at day
granularity as calendar dates; every fractional quantity is an exact
rational.  Python's `round(x, k)` (banker's rounding) is modelled by
`roundTo`; pandas' `NaN` (the mean of an empty series) is modelled by
`Option` with `none` for `NaN`.  Dict-shaped analyzer outputs are
association lists `List (String × JVal)` so that key sets are observable.
-/

namespace NUI

/-- Calendar date (timestamps of the engine, at day granularity). -/
structure Ts where
  year : Int
  month : Nat
  day : Nat
deriving DecidableEq, Repr

/-- Gregorian leap-year rule. -/
def isLeap (y : Int) : Bool :=
  (y % 4 == 0 && y % 100 != 0) || (y % 400 == 0)

/-- Number of days of month `m` of year `y`. -/
def daysInMonth (y : Int) (m : Nat) : Nat :=
  if m = 2 then (if isLeap y then 29 else 28)
  else if m = 4 ∨ m = 6 ∨ m = 9 ∨ m = 11 then 30
  else 31

/-- Absolute day number of a date (days since 1970-01-01, the standard
civil-from-days algorithm); models the instant of a pandas timestamp. -/
def absDay (t : Ts) : Int :=
  let y : Int := t.year - (if t.month ≤ 2 then 1 else 0)
  let era : Int := (if 0 ≤ y then y else y - 399) / 400
  let yoe : Int := y - era * 400
  let mp : Nat := (t.month + 9) % 12
  let doy : Int := (153 * (mp : Int) + 2) / 5 + (t.day : Int) - 1
  let doe : Int := yoe * 365 + yoe / 4 - yoe / 100 + doy
  era * 146097 + doe - 719468

/-- `Timestamp - DateOffset(months=12)`: same month a year earlier, day
clamped to the length of the target month. -/
def minus12Months (t : Ts) : Ts :=
  { year := t.year - 1, month := t.month,
    day := min t.day (daysInMonth (t.year - 1) t.month) }

/-- Banker's rounding of a rational to an integer (Python `round`). -/
def roundHalfEven (q : ℚ) : Int :=
  if q - ⌊q⌋ < 1/2 then ⌊q⌋
  else if 1/2 < q - ⌊q⌋ then ⌊q⌋ + 1
  else if ⌊q⌋ % 2 = 0 then ⌊q⌋ else ⌊q⌋ + 1

/-- Python `round(q, k)` where `s = 10^k`. -/
def roundTo (s : Nat) (q : ℚ) : ℚ :=
  (roundHalfEven (q * s) : ℚ) / s

/-- `round(q, 1)`. -/
def round1 (q : ℚ) : ℚ := roundTo 10 q

/-- `round(q, 2)`. -/
def round2 (q : ℚ) : ℚ := roundTo 100 q

/-- `round(q, 3)`. -/
def round3 (q : ℚ) : ℚ := roundTo 1000 q

/-- One raw page record (input of the engine). -/
structure Page where
  id : String
  created_time : Ts
  last_edited_time : Ts
  created_by : String
  last_edited_by : String
  archived : Bool := false
  title : Option String := none
deriving DecidableEq, Repr

/-- One user record of the user map. -/
structure UserRec where
  name : String
  email : String := ""
  type : String := "person"
deriving DecidableEq, Repr

/-- The user map `{user_id: {name, email, type}}`, as an association list
in dict insertion order. -/
abbrev Users := List (String × UserRec)

/-- Configuration thresholds of `config.py` (env-overridable values). -/
structure Config where
  STALE_THRESHOLD_DAYS : Int := 365
  VERY_STALE_THRESHOLD_DAYS : Int := 730
  POWER_USER_THRESHOLD : ℚ := 100
  ACTIVE_USER_THRESHOLD : ℚ := 20
  OCCASIONAL_USER_THRESHOLD : ℚ := 5
  MONTHLY_COST_PER_USER : ℚ := 12
  BLENDED_HOURLY_RATE : ℚ := 48
deriving DecidableEq, Repr

/-- The default configuration of `config.py`. -/
def defaultConfig : Config := {}

/-- `self.users.get(uid, {}).get('name', 'Unknown')`. -/
def userName (users : Users) (uid : String) : String :=
  ((users.lookup uid).map (fun u => u.name)).getD "Unknown"

/-- `(now - t).days` for the fixed reference instant `now`. -/
def daysSinceEdit (now : Ts) (p : Page) : Int :=
  absDay now - absDay p.last_edited_time

/-- `categorize_staleness` of `_prepare_dataframe`. -/
def categorizeStaleness (days : Int) : String :=
  if days < 30 then "Active (< 1 month)"
  else if days < 90 then "Fresh (1-3 months)"
  else if days < 180 then "Aging (3-6 months)"
  else if days < 365 then "Stale (6-12 months)"
  else if days < 730 then "Very Stale (12-24 months)"
  else "Dead (24+ months)"

/-- Zero-padded two-digit rendering of a month number. -/
def pad2 (m : Nat) : String :=
  if m < 10 then "0" ++ toString m else toString m

/-- `created_month` period label (`to_period('M').astype(str)`),
for example "2024-06". -/
def monthKey (p : Page) : String :=
  toString p.created_time.year ++ "-" ++ pad2 p.created_time.month

/-- `created_quarter` period label (`to_period('Q').astype(str)`),
for example "2024Q2". -/
def quarterKey (p : Page) : String :=
  toString p.created_time.year ++ "Q" ++
    toString ((p.created_time.month + 2) / 3)

/-- `is_abandoned`: exact equality of creation and last-edit instants. -/
def isAbandoned (p : Page) : Bool :=
  p.created_time = p.last_edited_time

/-- `is_single_owner`. -/
def isSingleOwner (p : Page) : Bool :=
  p.created_by = p.last_edited_by

/-- The list of `created_by` values of all pages (one per page). -/
def creatorsOf (pages : List Page) : List String :=
  pages.map (fun p => p.created_by)

/-- `df.groupby('created_by').size()`: pairs (creator id, page count),
one per distinct creator. -/
def pagesPerUser (pages : List Page) : List (String × Nat) :=
  (creatorsOf pages).dedup.map
    (fun c => (c, (creatorsOf pages).count c))

/-- The per-creator page counts sorted descending
(`.sort_values(ascending=False)`), values only. -/
def countsDesc (pages : List Page) : List Nat :=
  List.insertionSort (fun a b => b ≤ a) ((pagesPerUser pages).map (fun e => e.2))

/-- Creator ids sorted descending by page count (index of the sorted
series), used for `head(k).index`. -/
def creatorsDesc (pages : List Page) : List (String × Nat) :=
  List.insertionSort (fun a b => b.2 ≤ a.2) (pagesPerUser pages)

/-- One entry of a top-creators list. -/
structure CreatorEntry where
  user_id : String
  name : String
  page_count : Nat
  percentage : ℚ
deriving DecidableEq, Repr

/-- One entry of the collaboration scores list. -/
structure CollabEntry where
  user_id : String
  name : String
  pages_created : Nat
  others_pages_edited : Nat
  collaboration_score : ℚ
deriving DecidableEq, Repr

/-- One concentration bucket (`users`, `pages`, `percentage`). -/
structure ConcEntry where
  users : Nat
  pages : Nat
  percentage : ℚ
deriving DecidableEq, Repr

/-- One `cost_by_segment` row. -/
structure CostSeg where
  users : Nat
  monthly_cost : ℚ
  annual_cost : ℚ
deriving DecidableEq, Repr

/-- Values appearing in the dict-shaped analyzer results.  `nan` models
the float NaN produced by pandas; the table constructors model nested
dicts with their key types. -/
inductive JVal where
  | n (k : Nat)
  | i (k : Int)
  | q (r : ℚ)
  | s (t : String)
  | nan
  | yearTable (t : List (Int × Nat))
  | yoyTable (t : List (Int × ℚ))
  | strTable (t : List (String × Nat))
  | collabEntries (es : List CollabEntry)
  | concTable (t : List (String × ConcEntry))
  | costTable (t : List (String × CostSeg))
deriving DecidableEq, Repr

/-- One analyzer category result: a dict in insertion order. -/
abbrev Cat := List (String × JVal)

/-- `_analyze_summary`. -/
def analyzeSummary (cfg : Config) (users : Users) (pages : List Page)
    (now : Ts) : Cat :=
  let total_pages := pages.length
  let total_users := users.length
  let active := (creatorsOf pages).dedup.length
  let stale := (pages.filter (fun p => 365 ≤ daysSinceEdit now p)).length
  let stalePct : ℚ := if 0 < total_pages then (stale : ℚ) / total_pages * 100 else 0
  let annualCost : ℚ := (total_users : ℚ) * cfg.MONTHLY_COST_PER_USER * 12
  let costPerActive : ℚ := if 0 < active then annualCost / active else 0
  [("total_pages", .n total_pages),
   ("total_users", .n total_users),
   ("active_contributors", .n active),
   ("inactive_users", .i ((total_users : Int) - active)),
   ("stale_pages", .n stale),
   ("stale_percentage", .q (round1 stalePct)),
   ("annual_cost", .q annualCost),
   ("cost_per_active_user", .q (round2 costPerActive))]

/-- `annual_counts`: distinct creation years sorted ascending, with the
number of pages created in each. -/
def annualCounts (pages : List Page) : List (Int × Nat) :=
  let ys := pages.map (fun p => p.created_time.year)
  (List.insertionSort (fun a b => a ≤ b) ys.dedup).map
    (fun y => (y, ys.count y))

/-- The year-over-year loop: one entry per consecutive pair of *present*
years, `(count[curr] - count[prev]) / count[prev] * 100` rounded to one
decimal. -/
def yoyGrowth : List (Int × Nat) → List (Int × ℚ)
  | [] => []
  | [_] => []
  | (_, c₀) :: (y₁, c₁) :: rest =>
      (y₁, round1 (((c₁ : ℚ) - (c₀ : ℚ)) / (c₀ : ℚ) * 100)) ::
        yoyGrowth ((y₁, c₁) :: rest)

/-- Pages created within the trailing 12 months from `now`
(`created_time >= now - DateOffset(months=12)`). -/
def recentPages (pages : List Page) (now : Ts) : List Page :=
  pages.filter (fun p => absDay (minus12Months now) ≤ absDay p.created_time)

/-- `recent_pages.groupby('created_month').size()`. -/
def monthlyCounts (pages : List Page) (now : Ts) : List (String × Nat) :=
  let r := recentPages pages now
  (r.map monthKey).dedup.map (fun m => (m, (r.map monthKey).count m))

/-- `avg_monthly_pages`: the mean of the monthly counts of the trailing
window, rounded to one decimal; `none` is the NaN that the mean of an
empty series produces.  The `some 0` case is the empty-dataframe branch
of `_analyze_growth`. -/
def avgMonthlyPages (pages : List Page) (now : Ts) : Option ℚ :=
  match pages with
  | [] => some 0
  | _ :: _ =>
    if monthlyCounts pages now = [] then none
    else some (round1
      ((((((monthlyCounts pages now).map (fun e => e.2)).sum) : ℕ) : ℚ) /
        ((monthlyCounts pages now).length : ℚ)))

/-- `_analyze_growth` (the `now` here is the second, separate
`pd.Timestamp.now()` capture on its line 163). -/
def analyzeGrowth (pages : List Page) (now : Ts) : Cat :=
  match pages with
  | [] =>
    [("annual_counts", .yearTable []),
     ("yoy_growth", .yoyTable []),
     ("quarterly_latest_year", .strTable []),
     ("monthly_last_12", .strTable []),
     ("avg_monthly_pages", .q 0)]
  | p :: ps =>
    let all := p :: ps
    let annual := annualCounts all
    let latest := (ps.map (fun x => x.created_time.year)).foldl max
      p.created_time.year
    let latestPages := all.filter (fun x => x.created_time.year = latest)
    let quarterly := (latestPages.map quarterKey).dedup.map
      (fun k => (k, (latestPages.map quarterKey).count k))
    let monthly := monthlyCounts all now
    let avgVal : JVal := match avgMonthlyPages all now with
      | none => .nan
      | some a => .q a
    [("annual_counts", .yearTable annual),
     ("yoy_growth", .yoyTable (yoyGrowth annual)),
     ("quarterly_latest_year", .strTable quarterly),
     ("monthly_last_12", .strTable monthly),
     ("avg_monthly_pages", avgVal)]

/-- `calculate_annual_rate` of `_analyze_users`. -/
def annualRate (pages : List Page) (uid : String) : ℚ :=
  match (pages.filter (fun p => p.created_by = uid)).map
      (fun p => absDay p.created_time) with
  | [] => 0
  | d :: ds =>
    let first := ds.foldl min d
    let last := ds.foldl max d
    let yearsActive : ℚ := max ((((last - first : Int)) : ℚ) / (1461/4)) 1
    ((ds.length + 1 : Nat) : ℚ) / yearsActive

/-- The five activity tiers. -/
inductive Segment where
  | power | active | occasional | minimal | non
deriving DecidableEq, Repr

/-- The if/elif classification chain of `_analyze_users`, thresholds
tested in descending order, first match wins, comparisons `>=`. -/
def classify (cfg : Config) (rate : ℚ) : Segment :=
  if cfg.POWER_USER_THRESHOLD ≤ rate then .power
  else if cfg.ACTIVE_USER_THRESHOLD ≤ rate then .active
  else if cfg.OCCASIONAL_USER_THRESHOLD ≤ rate then .occasional
  else if 0 < rate then .minimal
  else .non

/-- Number of current users landing in segment `s`. -/
def segCount (cfg : Config) (users : Users) (pages : List Page)
    (s : Segment) : Nat :=
  (users.filter (fun u => classify cfg (annualRate pages u.1) = s)).length

/-- Total pages created by the users of segment `s`
(`pages_by_segment`). -/
def segPages (cfg : Config) (users : Users) (pages : List Page)
    (s : Segment) : Nat :=
  ((users.filter (fun u => classify cfg (annualRate pages u.1) = s)).map
    (fun u => (creatorsOf pages).count u.1)).sum

/-- Sum of the five segment user counts. -/
def segTotal (cfg : Config) (users : Users) (pages : List Page) : Nat :=
  segCount cfg users pages .power + segCount cfg users pages .active +
  segCount cfg users pages .occasional + segCount cfg users pages .minimal +
  segCount cfg users pages .non

/-- `_analyze_users`: the empty-dataframe branch returns the five segment
names as top-level keys; the main branch nests them under `segments`. -/
def analyzeUsers (cfg : Config) (users : Users) (pages : List Page) : Cat :=
  match pages with
  | [] =>
    [("power_creators", .n 0),
     ("active_creators", .n 0),
     ("occasional_creators", .n 0),
     ("minimal_creators", .n 0),
     ("non_creators", .n users.length)]
  | _ :: _ =>
    let segTable : List (String × Nat) :=
      [("power_creators", segCount cfg users pages .power),
       ("active_creators", segCount cfg users pages .active),
       ("occasional_creators", segCount cfg users pages .occasional),
       ("minimal_creators", segCount cfg users pages .minimal),
       ("non_creators", segCount cfg users pages .non)]
    let pbsTable : List (String × Nat) :=
      [("power_creators", segPages cfg users pages .power),
       ("active_creators", segPages cfg users pages .active),
       ("occasional_creators", segPages cfg users pages .occasional),
       ("minimal_creators", segPages cfg users pages .minimal),
       ("non_creators", 0)]
    let totalUsers := users.length
    let activeCreators : ℚ := (totalUsers : ℚ) - (segCount cfg users pages .non : ℚ)
    let pct : ℚ := if 0 < totalUsers then activeCreators / totalUsers * 100 else 0
    [("segments", .strTable segTable),
     ("pages_by_segment", .strTable pbsTable),
     ("active_creator_percentage", .q (round1 pct))]

/-- `_analyze_top_creators` (limit 10). -/
def analyzeTopCreators (users : Users) (pages : List Page) : List CreatorEntry :=
  match pages with
  | [] => []
  | _ :: _ =>
    let top := (creatorsDesc pages).take 10
    let total := pages.length
    top.map (fun e =>
      { user_id := e.1, name := userName users e.1, page_count := e.2,
        percentage := round1 (if 0 < total then (e.2 : ℚ) / total * 100 else 0) })

/-- One collaboration entry of `_analyze_collaboration`'s per-user loop. -/
def collabEntryOf (pages : List Page) (uid : String) (nm : String) : CollabEntry :=
  let created := (pages.filter (fun p => p.created_by = uid)).length
  let others := (pages.filter
    (fun p => p.last_edited_by = uid ∧ p.created_by ≠ uid)).length
  let score : ℚ := if 0 < created then ((others : ℚ) / created) * 100 else 0
  { user_id := uid, name := nm, pages_created := created,
    others_pages_edited := others, collaboration_score := round1 score }

/-- The unsorted per-user collaboration results (one entry per key of the
user map, in map order). -/
def collabResults (users : Users) (pages : List Page) : List CollabEntry :=
  users.map (fun u => collabEntryOf pages u.1 u.2.name)

/-- `collaborated_pages`: pages whose creator differs from the last
editor. -/
def collaboratedPages (pages : List Page) : Nat :=
  (pages.filter (fun p => p.created_by ≠ p.last_edited_by)).length

/-- `single_owner_pages`: pages whose creator equals the last editor. -/
def singleOwnerPages (pages : List Page) : Nat :=
  (pages.filter (fun p => p.created_by = p.last_edited_by)).length

/-- `_analyze_collaboration`. -/
def analyzeCollaboration (users : Users) (pages : List Page) : Cat :=
  match pages with
  | [] =>
    [("user_scores", .collabEntries []),
     ("avg_collaboration_score", .q 0),
     ("high_collaborators", .n 0),
     ("siloed_creators", .n users.length)]
  | _ :: _ =>
    let results := List.insertionSort
      (fun a b => b.collaboration_score ≤ a.collaboration_score)
      (collabResults users pages)
    let top := results.take 10
    let activeEntries := results.filter (fun r => 0 < r.pages_created)
    let avg : ℚ :=
      match activeEntries with
      | [] => 0
      | _ :: _ =>
        ((activeEntries.map (fun r => r.collaboration_score)).sum) /
          (activeEntries.length : ℚ)
    let pct : ℚ :=
      if 0 < pages.length
      then (collaboratedPages pages : ℚ) / (pages.length : ℚ) * 100
      else 0
    [("top_collaborators", .collabEntries top),
     ("average_collaboration_score", .q (round1 avg)),
     ("collaborated_pages", .n (collaboratedPages pages)),
     ("single_owner_pages", .n (singleOwnerPages pages)),
     ("collaboration_percentage", .q (round1 pct))]

/-- `staleness.value_counts()`, as pairs (category, count). -/
def stalenessDistribution (pages : List Page) (now : Ts) : List (String × Nat) :=
  let ls := pages.map (fun p => categorizeStaleness (daysSinceEdit now p))
  ls.dedup.map (fun c => (c, ls.count c))

/-- `stale_pages` of `_analyze_content_health`: the literal `>= 365`. -/
def stalePagesCount (pages : List Page) (now : Ts) : Nat :=
  (pages.filter (fun p => 365 ≤ daysSinceEdit now p)).length

/-- `very_stale_pages` of `_analyze_content_health`: the literal `>= 730`. -/
def veryStalePagesCount (pages : List Page) (now : Ts) : Nat :=
  (pages.filter (fun p => 730 ≤ daysSinceEdit now p)).length

/-- `_analyze_content_health`. -/
def analyzeContentHealth (pages : List Page) (now : Ts) : Cat :=
  match pages with
  | [] =>
    [("staleness_distribution", .strTable []),
     ("stale_pages", .n 0),
     ("very_stale_pages", .n 0),
     ("abandoned_pages", .n 0),
     ("single_owner_pages", .n 0),
     ("stale_percentage", .q 0),
     ("abandoned_percentage", .q 0)]
  | _ :: _ =>
    let total := pages.length
    let stale := stalePagesCount pages now
    let vstale := veryStalePagesCount pages now
    let abandoned := (pages.filter (fun p => isAbandoned p)).length
    let topIds := ((creatorsDesc pages).take 10).map (fun e => e.1)
    let abandonedByTop := (pages.filter
      (fun p => isAbandoned p ∧ p.created_by ∈ topIds)).length
    let archived := (pages.filter (fun p => p.archived)).length
    let stalePct : ℚ := if 0 < total then (stale : ℚ) / total * 100 else 0
    let vstalePct : ℚ := if 0 < total then (vstale : ℚ) / total * 100 else 0
    let abandonedPct : ℚ := if 0 < total then (abandoned : ℚ) / total * 100 else 0
    [("staleness_distribution", .strTable (stalenessDistribution pages now)),
     ("stale_pages", .n stale),
     ("stale_percentage", .q (round1 stalePct)),
     ("very_stale_pages", .n vstale),
     ("very_stale_percentage", .q (round1 vstalePct)),
     ("abandoned_pages", .n abandoned),
     ("abandoned_percentage", .q (round1 abandonedPct)),
     ("abandoned_by_top_creators", .n abandonedByTop),
     ("archived_pages", .n archived)]

/-- `_analyze_costs`. -/
def analyzeCosts (cfg : Config) (users : Users) (pages : List Page) : Cat :=
  match pages with
  | [] =>
    let totalUsers := users.length
    let annualCost : ℚ := (totalUsers : ℚ) * cfg.MONTHLY_COST_PER_USER * 12
    [("annual_cost", .q annualCost),
     ("cost_per_active_user", .q 0),
     ("cost_by_segment", .costTable []),
     ("wasted_licenses", .n totalUsers),
     ("wasted_cost", .q annualCost),
     ("roi_estimate", .q 0)]
  | _ :: _ =>
    let seg := fun s => segCount cfg users pages s
    let row := fun (s : Segment) =>
      let c := seg s
      { users := c, monthly_cost := (c : ℚ) * cfg.MONTHLY_COST_PER_USER,
        annual_cost := (c : ℚ) * cfg.MONTHLY_COST_PER_USER * 12 : CostSeg }
    let costBySegment : List (String × CostSeg) :=
      [("power_creators", row .power),
       ("active_creators", row .active),
       ("occasional_creators", row .occasional),
       ("minimal_creators", row .minimal),
       ("non_creators", row .non)]
    let totalUsers := users.length
    let totalAnnualCost : ℚ := (totalUsers : ℚ) * cfg.MONTHLY_COST_PER_USER * 12
    let active := (creatorsOf pages).dedup.length
    let costPerActive : ℚ := if 0 < active then totalAnnualCost / active else 0
    let wastedAnnual : ℚ := (seg .non : ℚ) * cfg.MONTHLY_COST_PER_USER * 12
    let wastePct : ℚ :=
      if 0 < totalAnnualCost then wastedAnnual / totalAnnualCost * 100 else 0
    let creationValue : ℚ := (pages.length : ℚ) * cfg.BLENDED_HOURLY_RATE
    let roi : ℚ :=
      if 0 < totalAnnualCost
      then (creationValue - totalAnnualCost) / totalAnnualCost * 100
      else 0
    [("cost_by_segment", .costTable costBySegment),
     ("total_annual_cost", .q totalAnnualCost),
     ("cost_per_active_creator", .q (round2 costPerActive)),
     ("wasted_spend_annual", .q wastedAnnual),
     ("wasted_spend_percentage", .q (round1 wastePct)),
     ("total_creation_value", .q creationValue),
     ("roi_percentage", .q (round1 roi)),
     ("monthly_cost_per_user", .q cfg.MONTHLY_COST_PER_USER),
     ("blended_hourly_rate", .q cfg.BLENDED_HOURLY_RATE)]

/-- `is_template`: case-insensitive substring "template" in the title. -/
def isTemplate (p : Page) : Bool :=
  match p.title with
  | none => false
  | some t => (t.toLower.splitOn "template").length > 1

/-- `_analyze_structure`. -/
def analyzeStructure (pages : List Page) : Cat :=
  match pages with
  | [] =>
    [("templates_count", .n 0),
     ("databases_count", .n 0),
     ("pages_count", .n 0),
     ("template_percentage", .q 0)]
  | _ :: _ =>
    let total := pages.length
    let tpl := (pages.filter (fun p => isTemplate p)).length
    let pct : ℚ := if 0 < total then (tpl : ℚ) / total * 100 else 0
    [("template_count", .n tpl),
     ("template_percentage", .q (round1 pct)),
     ("non_template_count", .n (total - tpl))]

/-- Weighted 1-indexed sum `Σᵢ i·xᵢ` of a list. -/
def wsum : List Nat → Nat
  | [] => 0
  | a :: xs => a + xs.sum + wsum xs

/-- The Gini formula of `_analyze_risk` applied to an (already sorted)
vector: `(2·Σᵢ i·xᵢ)/(n·Σx) − (n+1)/n`, and `0` when the sum is `0`. -/
def giniRaw (l : List Nat) : ℚ :=
  if 0 < l.sum then
    (2 * (wsum l : ℚ)) / ((l.length : ℚ) * (l.sum : ℚ)) -
      ((l.length : ℚ) + 1) / (l.length : ℚ)
  else 0

/-- The zero-padded per-user page-count vector: per-creator counts
extended with `total_users - len(pages_per_user)` zeros (in Python a
negative count of zeros extends by nothing, hence truncated
subtraction). -/
def giniVector (users : Users) (pages : List Page) : List Nat :=
  (pagesPerUser pages).map (fun e => e.2) ++
    List.replicate (users.length - (pagesPerUser pages).length) 0

/-- `gini_coefficient` of the risk result (rounded to three decimals;
`0.0` on the empty dataframe). -/
def giniCoefficient (users : Users) (pages : List Page) : ℚ :=
  match pages with
  | [] => 0
  | _ :: _ =>
    round3 (giniRaw (List.insertionSort (fun a b => a ≤ b)
      (giniVector users pages)))

/-- The bus-factor accumulation loop of `_analyze_risk`. -/
def busFactorAux (total : ℚ) : List Nat → ℚ → Nat → Nat
  | [], _, acc => acc
  | c :: rest, cum, acc =>
    let cum2 := cum + (if 0 < total then (c : ℚ) / total * 100 else 0)
    if 50 ≤ cum2 then acc + 1 else busFactorAux total rest cum2 (acc + 1)

/-- `bus_factor` of the risk result. -/
def busFactor (users : Users) (pages : List Page) : Nat :=
  match pages with
  | [] => 0
  | _ :: _ => busFactorAux (pages.length : ℚ) (countsDesc pages) 0 0

/-- Cumulative page share (as a percentage) of the top `k` creators. -/
def topShare (pages : List Page) (k : Nat) : ℚ :=
  ((((countsDesc pages).take k).sum : ℚ) / (pages.length : ℚ)) * 100

/-- `_analyze_risk`. -/
def analyzeRisk (users : Users) (pages : List Page) : Cat :=
  match pages with
  | [] =>
    [("concentration", .concTable
       [("top_1_percent", { users := 0, pages := 0, percentage := 0 }),
        ("top_5_percent", { users := 0, pages := 0, percentage := 0 }),
        ("top_10_percent", { users := 0, pages := 0, percentage := 0 })]),
     ("gini_coefficient", .q 0),
     ("bus_factor", .n 0)]
  | _ :: _ =>
    let total := pages.length
    let totalUsers := users.length
    let topCount := fun (p : ℚ) => max 1 (Int.toNat ⌊(totalUsers : ℚ) * p⌋)
    let conc := fun (p : ℚ) =>
      let k := topCount p
      let pgs := ((countsDesc pages).take k).sum
      { users := k, pages := pgs,
        percentage := round1 (if 0 < total then (pgs : ℚ) / total * 100 else 0)
        : ConcEntry }
    let topIds := ((creatorsDesc pages).take 10).map (fun e => e.1)
    let singleOwnerTop10 := (pages.filter
      (fun p => isSingleOwner p ∧ p.created_by ∈ topIds)).length
    [("concentration", .concTable
       [("top_1_percent", conc (1/100)),
        ("top_5_percent", conc (5/100)),
        ("top_10_percent", conc (10/100))]),
     ("gini_coefficient", .q (giniCoefficient users pages)),
     ("bus_factor", .n (busFactor users pages)),
     ("single_owner_pages_top_10", .n singleOwnerTop10)]

/-- The combined engine output of `run_all`.  `now1` is the reference
instant captured in `_prepare_dataframe`; `now2` is the second capture
made inside `_analyze_growth`. -/
structure EngineResult where
  summary : Cat
  growth : Cat
  users : Cat
  top_creators : List CreatorEntry
  collaboration : Cat
  content_health : Cat
  costs : Cat
  structureInfo : Cat
  risk : Cat
deriving DecidableEq, Repr

/-- `run_all`: every analyzer over the one shared dataset. -/
def runAll (cfg : Config) (users : Users) (pages : List Page)
    (now1 now2 : Ts) : EngineResult :=
  { summary := analyzeSummary cfg users pages now1
    growth := analyzeGrowth pages now2
    users := analyzeUsers cfg users pages
    top_creators := analyzeTopCreators users pages
    collaboration := analyzeCollaboration users pages
    content_health := analyzeContentHealth pages now1
    costs := analyzeCosts cfg users pages
    structureInfo := analyzeStructure pages
    risk := analyzeRisk users pages }

/-! ### Helper lemmas -/

theorem roundHalfEven_nonneg {q : ℚ} (h : 0 ≤ q) : 0 ≤ roundHalfEven q := by
  unfold roundHalfEven
  have hf : (0 : Int) ≤ ⌊q⌋ := Int.floor_nonneg.mpr h
  split_ifs <;> omega

theorem roundHalfEven_le_intCast {q : ℚ} {m : Int} (h : q ≤ (m : ℚ)) :
    roundHalfEven q ≤ m := by
  unfold roundHalfEven
  have hfle : ⌊q⌋ ≤ m := by
    have := Int.floor_le_floor h
    simpa using this
  have hq : (⌊q⌋ : ℚ) ≤ q := Int.floor_le q
  split_ifs with h1 h2 h3
  · exact hfle
  · -- here 1/2 < q - ⌊q⌋, so ⌊q⌋ < m
    have : (⌊q⌋ : ℚ) + 1/2 < (m : ℚ) := by linarith
    have : (⌊q⌋ : ℚ) < (m : ℚ) := by linarith
    have : ⌊q⌋ < m := by exact_mod_cast this
    omega
  · exact hfle
  · -- exact half case rounding up: q = ⌊q⌋ + 1/2 ≤ m forces ⌊q⌋ < m
    have hhalf : (1:ℚ)/2 ≤ q - ⌊q⌋ := le_of_not_lt h1
    have : (⌊q⌋ : ℚ) + 1/2 ≤ (m : ℚ) := by linarith
    have : (⌊q⌋ : ℚ) < (m : ℚ) := by linarith
    have : ⌊q⌋ < m := by exact_mod_cast this
    omega

theorem roundTo_nonneg {s : Nat} {q : ℚ} (h : 0 ≤ q) : 0 ≤ roundTo s q := by
  unfold roundTo
  apply div_nonneg _ (by positivity)
  have : (0:Int) ≤ roundHalfEven (q * s) :=
    roundHalfEven_nonneg (by positivity)
  exact_mod_cast this

theorem roundTo_le_one {s : Nat} (hs : 0 < s) {q : ℚ} (h : q ≤ 1) :
    roundTo s q ≤ 1 := by
  unfold roundTo
  have hs' : (0:ℚ) < (s : ℚ) := by exact_mod_cast hs
  rw [div_le_one hs']
  have : roundHalfEven (q * s) ≤ (s : Int) := by
    apply roundHalfEven_le_intCast
    push_cast
    nlinarith
  exact_mod_cast this

theorem le_sum_of_forall_le (a : Nat) (l : List Nat) (h : ∀ b ∈ l, a ≤ b) :
    l.length * a ≤ l.sum := by
  induction l with
  | nil => simp
  | cons b t ih =>
    have hb := h b (List.mem_cons_self b t)
    have ht := ih (fun x hx => h x (List.mem_cons_of_mem b hx))
    simp only [List.length_cons, List.sum_cons]
    calc (t.length + 1) * a = t.length * a + a := by ring
    _ ≤ t.sum + b := by omega
    _ = b + t.sum := by omega

theorem wsum_le (l : List Nat) : wsum l ≤ l.length * l.sum := by
  induction l with
  | nil => simp [wsum]
  | cons a t ih =>
    simp only [wsum, List.length_cons, List.sum_cons]
    have e : (t.length + 1) * (a + t.sum) =
        a + t.sum + (t.length * t.sum + t.length * a) := by ring
    rw [e]
    omega

theorem wsum_lower (l : List Nat) (h : l.Pairwise (· ≤ ·)) :
    (l.length + 1) * l.sum ≤ 2 * wsum l := by
  induction l with
  | nil => simp [wsum]
  | cons a t ih =>
    rw [List.pairwise_cons] at h
    obtain ⟨ha, ht⟩ := h
    have h1 := ih ht
    have h2 := le_sum_of_forall_le a t ha
    simp only [wsum, List.length_cons, List.sum_cons]
    have e1 : (t.length + 1 + 1) * (a + t.sum) =
        t.length * a + (t.length + 1) * t.sum + 2 * a + t.sum := by ring
    have e2 : 2 * (a + t.sum + wsum t) = 2 * a + 2 * t.sum + 2 * wsum t := by
      ring
    rw [e1, e2]
    omega

theorem giniRaw_nonneg (l : List Nat) (h : l.Pairwise (· ≤ ·)) :
    0 ≤ giniRaw l := by
  unfold giniRaw
  split_ifs with hs
  · have hne : l ≠ [] := by
      intro e; rw [e] at hs; simp at hs
    have hn : 0 < l.length := List.length_pos.mpr hne
    have hnq : (0:ℚ) < (l.length : ℚ) := by exact_mod_cast hn
    have hsq : (0:ℚ) < (l.sum : ℚ) := by exact_mod_cast hs
    have key : ((l.length : ℚ) + 1) * (l.sum : ℚ) ≤ 2 * (wsum l : ℚ) := by
      exact_mod_cast wsum_lower l h
    rw [sub_nonneg, div_le_div_iff hnq (by positivity)]
    calc ((l.length : ℚ) + 1) * ((l.length : ℚ) * (l.sum : ℚ))
        = (((l.length : ℚ) + 1) * (l.sum : ℚ)) * (l.length : ℚ) := by ring
    _ ≤ (2 * (wsum l : ℚ)) * (l.length : ℚ) := by
        exact mul_le_mul_of_nonneg_right key (le_of_lt hnq)
  · exact le_refl 0

theorem giniRaw_le_one (l : List Nat) : giniRaw l ≤ 1 := by
  unfold giniRaw
  split_ifs with hs
  · have hne : l ≠ [] := by
      intro e; rw [e] at hs; simp at hs
    have hn : 0 < l.length := List.length_pos.mpr hne
    have hnq : (0:ℚ) < (l.length : ℚ) := by exact_mod_cast hn
    have hsq : (0:ℚ) < (l.sum : ℚ) := by exact_mod_cast hs
    have up : (wsum l : ℚ) ≤ (l.length : ℚ) * (l.sum : ℚ) := by
      exact_mod_cast wsum_le l
    have h2 : 2 * (wsum l : ℚ) / ((l.length : ℚ) * (l.sum : ℚ)) ≤ 2 := by
      rw [div_le_iff (by positivity)]
      nlinarith
    have h3 : (1:ℚ) ≤ ((l.length : ℚ) + 1) / (l.length : ℚ) := by
      rw [le_div_iff hnq]
      linarith
    linarith
  · norm_num

theorem collab_single_partition (pages : List Page) :
    collaboratedPages pages + singleOwnerPages pages = pages.length := by
  unfold collaboratedPages singleOwnerPages
  simp only [decide_not]
  induction pages with
  | nil => rfl
  | cons p t ih =>
    by_cases h : p.created_by = p.last_edited_by <;>
      simp [List.filter_cons, h] <;> omega

theorem sum_counts_dedup (l : List String) :
    ((l.dedup.map (fun c => (c, l.count c))).map (fun e => e.2)).sum
      = l.length := by
  rw [List.map_map]
  simpa using List.sum_map_count_dedup_eq_length l

theorem countsDesc_sum (pages : List Page) :
    (countsDesc pages).sum = pages.length := by
  unfold countsDesc
  rw [(List.perm_insertionSort _ _).sum_eq]
  unfold pagesPerUser
  rw [sum_counts_dedup]
  simp [creatorsOf]

/-- Full specification of the bus-factor loop: starting below the
threshold with enough remaining share to reach it, it returns the least
number of further users whose cumulative share crosses 50. -/
theorem busFactorAux_spec (total : ℚ) (ht : 0 < total) :
    ∀ (xs : List Nat) (cum : ℚ) (acc : Nat),
      cum < 50 → 50 ≤ cum + ((xs.sum : ℚ) / total) * 100 →
      ∃ k, busFactorAux total xs cum acc = acc + k ∧ 1 ≤ k ∧
        k ≤ xs.length ∧
        50 ≤ cum + (((xs.take k).sum : ℚ) / total) * 100 ∧
        ∀ j < k, cum + (((xs.take j).sum : ℚ) / total) * 100 < 50
  | [], cum, acc, hlt, hreach => by
    exfalso
    simp only [List.sum_nil, Nat.cast_zero, zero_div, zero_mul, add_zero] at hreach
    linarith
  | c :: rest, cum, acc, hlt, hreach => by
    have hsplit : ((c : ℚ) + (rest.sum : ℚ)) / total =
        (c : ℚ) / total + (rest.sum : ℚ) / total := add_div _ _ _
    by_cases h50 : 50 ≤ cum + ((c : ℚ) / total) * 100
    · refine ⟨1, ?_, le_refl 1, by simp, ?_, ?_⟩
      · show busFactorAux total (c :: rest) cum acc = acc + 1
        unfold busFactorAux
        rw [if_pos ht, if_pos h50]
      · simpa using h50
      · intro j hj
        interval_cases j
        simpa using hlt
    · have hcum2 : cum + ((c : ℚ) / total) * 100 < 50 := lt_of_not_le h50
      have hreach2 : 50 ≤ (cum + ((c : ℚ) / total) * 100) +
          ((rest.sum : ℚ) / total) * 100 := by
        have : ((c : ℚ) + (rest.sum : ℚ)) / total * 100 =
            ((c : ℚ) / total) * 100 + ((rest.sum : ℚ) / total) * 100 := by
          rw [hsplit]; ring
        simp only [List.sum_cons, Nat.cast_add] at hreach
        linarith [hreach, this.symm.le]
      obtain ⟨k, hk_eq, hk1, hklen, hk50, hkmin⟩ :=
        busFactorAux_spec total ht rest (cum + ((c : ℚ) / total) * 100)
          (acc + 1) hcum2 hreach2
      refine ⟨k + 1, ?_, by omega, by simpa using hklen, ?_, ?_⟩
      · show busFactorAux total (c :: rest) cum acc = acc + (k + 1)
        unfold busFactorAux
        rw [if_pos ht, if_neg h50, hk_eq]
        omega
      · show 50 ≤ cum + ((((c :: rest).take (k + 1)).sum : ℚ) / total) * 100
        simp only [List.take_succ_cons, List.sum_cons, Nat.cast_add]
        have : ((c : ℚ) + ((rest.take k).sum : ℚ)) / total * 100 =
            ((c : ℚ) / total) * 100 + (((rest.take k).sum : ℚ) / total) * 100 := by
          rw [add_div]; ring
        linarith [hk50, this.le]
      · intro j hj
        match j with
        | 0 => simpa using hlt
        | j' + 1 =>
          have hj' : j' < k := by omega
          have := hkmin j' hj'
          simp only [List.take_succ_cons, List.sum_cons, Nat.cast_add]
          have e : ((c : ℚ) + ((rest.take j').sum : ℚ)) / total * 100 =
              ((c : ℚ) / total) * 100 + (((rest.take j').sum : ℚ) / total) * 100 := by
            rw [add_div]; ring
          linarith [this, e.le]

/-- The five-way classification partitions the user map: summing the
segment counts gives the number of current users. -/
theorem segTotal_eq (cfg : Config) (users : Users) (pages : List Page) :
    segTotal cfg users pages = users.length := by
  unfold segTotal segCount
  induction users with
  | nil => rfl
  | cons u us ih =>
    cases hseg : classify cfg (annualRate pages u.1) <;>
      simp [List.filter_cons, hseg] <;> omega

/-- A key whose lookup is `none` is not among the keys. -/
theorem not_mem_keys_of_lookup_none {β : Type} (l : List (String × β))
    (a : String) (h : l.lookup a = none) : a ∉ l.map (fun e => e.1) := by
  induction l with
  | nil => simp
  | cons e t ih =>
    simp only [List.lookup] at h
    by_cases he : a = e.1
    · rw [show (a == e.1) = true from beq_iff_eq.mpr he] at h
      simp at h
    · rw [show (a == e.1) = false from beq_eq_false_iff_ne.mpr he] at h
      simp only [List.map_cons, List.mem_cons]
      push_neg
      exact ⟨he, ih h⟩

/-- `annual_counts` is keyed by strictly increasing years. -/
theorem annualCounts_pairwise (pages : List Page) :
    (annualCounts pages).Pairwise (fun a b => a.1 < b.1) := by
  unfold annualCounts
  rw [List.pairwise_map]
  have hsorted : List.Sorted (· ≤ ·)
      (List.insertionSort (fun a b => a ≤ b)
        (pages.map (fun p => p.created_time.year)).dedup) :=
    List.sorted_insertionSort _ _
  have hnodup : (List.insertionSort (fun a b => a ≤ b)
      (pages.map (fun p => p.created_time.year)).dedup).Nodup :=
    ((List.perm_insertionSort _ _).nodup_iff).mpr (List.nodup_dedup _)
  have := hsorted.and hnodup
  exact this.imp (fun h => lt_of_le_of_ne h.1 h.2)

/-- In a strictly-increasing year table containing both year `y - 1` and
year `y`, the year-over-year loop produces the entry for `y` computed
from the counts of those two years. -/
theorem yoyGrowth_mem : ∀ (l : List (Int × Nat)),
    l.Pairwise (fun a b => a.1 < b.1) →
    ∀ {y : Int} {c c' : Nat}, (y - 1, c) ∈ l → (y, c') ∈ l →
    (y, round1 (((c' : ℚ) - (c : ℚ)) / (c : ℚ) * 100)) ∈ yoyGrowth l
  | [], _, _, _, _, h1, _ => absurd h1 (List.not_mem_nil _)
  | [a], _, y, c, c', h1, h2 => by
    simp only [List.mem_singleton] at h1 h2
    have : y - 1 = a.1 := congrArg Prod.fst h1
    have : y = a.1 := congrArg Prod.fst h2
    omega
  | a :: b :: rest, hp, y, c, c', h1, h2 => by
    have ha : ∀ x ∈ b :: rest, a.1 < x.1 := (List.pairwise_cons.mp hp).1
    have htail : (b :: rest).Pairwise (fun x z => x.1 < z.1) :=
      (List.pairwise_cons.mp hp).2
    have hb : ∀ x ∈ rest, b.1 < x.1 := (List.pairwise_cons.mp htail).1
    rcases List.mem_cons.mp h1 with h1a | h1t
    · rcases List.mem_cons.mp h2 with h2a | h2t
      · have e1 : y - 1 = a.1 := by rw [← h1a]
        have e2 : y = a.1 := by rw [← h2a]
        omega
      · rcases List.mem_cons.mp h2t with h2b | h2r
        · -- the adjacent-pair case: the head entry of the loop output
          have e1 : a = (y - 1, c) := h1a.symm
          have e2 : b = (y, c') := h2b.symm
          subst e1; subst e2
          exact List.mem_cons_self _ _
        · exfalso
          have hab : a.1 < b.1 := ha b (List.mem_cons_self b rest)
          have hby : b.1 < y := hb (y, c') h2r
          have hay : a.1 = y - 1 := by rw [← h1a]
          omega
    · rcases List.mem_cons.mp h2 with h2a | h2t
      · exfalso
        have : a.1 < y - 1 := ha (y - 1, c) h1t
        have : y = a.1 := by rw [← h2a]
        omega
      · exact List.mem_cons_of_mem _ (yoyGrowth_mem (b :: rest) htail h1t h2t)

/-- The monthly group sizes of the trailing window sum to the number of
recent pages. -/
theorem monthlyCounts_sum (pages : List Page) (now : Ts) :
    ((monthlyCounts pages now).map (fun e => e.2)).sum
      = (recentPages pages now).length := by
  unfold monthlyCounts
  rw [List.map_map]
  have h2 := List.sum_map_count_dedup_eq_length
    ((recentPages pages now).map monthKey)
  rw [List.length_map] at h2
  simp only [Function.comp_def]
  exact h2

/-! ### Concrete fixtures -/

/-- Page builder for fixtures. -/
def mkPage (i : String) (ct et : Ts) (cb eb : String) : Page :=
  { id := i, created_time := ct, last_edited_time := et,
    created_by := cb, last_edited_by := eb }

/-- User-record builder for fixtures. -/
def uRec (nm : String) : UserRec := { name := nm }

/-- Three pages by two creators (counts 1 and 2), used against an empty
user map. -/
def giniExPages : List Page :=
  [mkPage "1" ⟨2024, 1, 1⟩ ⟨2024, 1, 1⟩ "u1" "u1",
   mkPage "2" ⟨2024, 1, 2⟩ ⟨2024, 1, 2⟩ "u2" "u2",
   mkPage "3" ⟨2024, 1, 3⟩ ⟨2024, 1, 3⟩ "u2" "u2"]

/-! ### C1 -/

set_option maxRecDepth 8000 in
/-- C1 counterexample: with an empty user map but three pages (creator
counts 1 and 2) the reported Gini coefficient is 0.167, not 0, refuting
"it equals 0 whenever ... there are no users". -/
theorem c1_counterexample :
    ([] : Users).length = 0 ∧ giniExPages.length = 3 ∧
    giniCoefficient [] giniExPages = 167/1000 ∧
    giniCoefficient [] giniExPages ≠ 0 := by
  refine ⟨rfl, rfl, ?_, ?_⟩ <;> with_unfolding_all decide

/-- C1 (amended): for every input the reported `gini_coefficient` lies
in `[0, 1]`, and it is 0 when the page list is empty; the risk result
carries exactly this value.  (When the user map is empty but pages
exist, the value is computed from the unpadded per-creator counts and
can be nonzero.) -/
theorem c1_gini_bounds (users : Users) (pages : List Page) :
    0 ≤ giniCoefficient users pages ∧ giniCoefficient users pages ≤ 1 ∧
    (pages = [] → giniCoefficient users pages = 0) ∧
    (analyzeRisk users pages).lookup "gini_coefficient" =
      some (.q (giniCoefficient users pages)) := by
  match pages with
  | [] =>
    refine ⟨?_, ?_, fun _ => rfl, rfl⟩ <;> simp [giniCoefficient]
  | p :: ps =>
    have hpair : (List.insertionSort (fun a b => a ≤ b)
        (giniVector users (p :: ps))).Pairwise (· ≤ ·) :=
      List.sorted_insertionSort _ _
    have h0 := giniRaw_nonneg _ hpair
    have h1 := giniRaw_le_one (List.insertionSort (fun a b => a ≤ b)
      (giniVector users (p :: ps)))
    refine ⟨?_, ?_, ?_, rfl⟩
    · exact roundTo_nonneg h0
    · exact roundTo_le_one (by norm_num) h1
    · intro h; exact absurd h (List.cons_ne_nil p ps)

/-- C1 witness: the amended theorem applied at a concrete input. -/
theorem c1_gini_bounds_witness :
    0 ≤ giniCoefficient [] giniExPages ∧
    giniCoefficient [] giniExPages ≤ 1 ∧
    (giniExPages = [] → giniCoefficient [] giniExPages = 0) ∧
    (analyzeRisk [] giniExPages).lookup "gini_coefficient" =
      some (.q (giniCoefficient [] giniExPages)) :=
  c1_gini_bounds [] giniExPages

/-! ### C2 -/

/-- C2 (confirmed): `bus_factor` is 0 on an empty page list, and on a
non-empty one it is the least number of top creators (descending by
page count) whose cumulative share of all pages reaches 50%, hence at
least 1; the risk result carries exactly this value. -/
theorem c2_bus_factor (users : Users) (pages : List Page) :
    (pages = [] → busFactor users pages = 0) ∧
    (pages ≠ [] →
      1 ≤ busFactor users pages ∧
      50 ≤ topShare pages (busFactor users pages) ∧
      (∀ j < busFactor users pages, topShare pages j < 50) ∧
      (analyzeRisk users pages).lookup "bus_factor" =
        some (.n (busFactor users pages))) := by
  constructor
  · intro h; subst h; rfl
  · intro hne
    match pages, hne with
    | p :: ps, _ =>
      have htot : (0:ℚ) < (((p :: ps).length : Nat) : ℚ) := by
        have : 0 < (p :: ps).length := List.length_pos.mpr (List.cons_ne_nil p ps)
        exact_mod_cast this
      have hsum : (countsDesc (p :: ps)).sum = (p :: ps).length :=
        countsDesc_sum _
      have hreach : 50 ≤ (0:ℚ) +
          (((countsDesc (p :: ps)).sum : ℚ) / (((p :: ps).length : Nat) : ℚ)) * 100 := by
        rw [hsum]
        rw [div_self (ne_of_gt htot)]
        norm_num
      obtain ⟨k, hk_eq, hk1, hklen, hk50, hkmin⟩ :=
        busFactorAux_spec (((p :: ps).length : Nat) : ℚ) htot
          (countsDesc (p :: ps)) 0 0 (by norm_num) hreach
      have hbf : busFactor users (p :: ps) = k := by
        show busFactorAux (((p :: ps).length : Nat) : ℚ)
          (countsDesc (p :: ps)) 0 0 = k
        rw [hk_eq]; omega
      refine ⟨by omega, ?_, ?_, rfl⟩
      · rw [hbf]
        unfold topShare
        have := hk50
        rw [zero_add] at this
        exact this
      · intro j hj
        rw [hbf] at hj
        have := hkmin j hj
        rw [zero_add] at this
        unfold topShare
        exact this

/-- Ten pages, nine by one creator: bus factor fixture. -/
def busExPages : List Page :=
  (List.range 9).map (fun k =>
    mkPage (toString k) ⟨2024, 1, 1⟩ ⟨2024, 1, 1⟩ "a" "a") ++
  [mkPage "x" ⟨2024, 1, 1⟩ ⟨2024, 1, 1⟩ "b" "b"]

/-- C2 witness: the theorem applied at a concrete skewed input, where
the bus factor is 1. -/
theorem c2_bus_factor_witness :
    (1 ≤ busFactor [] busExPages ∧
      50 ≤ topShare busExPages (busFactor [] busExPages) ∧
      (∀ j < busFactor [] busExPages, topShare busExPages j < 50) ∧
      (analyzeRisk [] busExPages).lookup "bus_factor" =
        some (.n (busFactor [] busExPages))) ∧
    busFactor [] busExPages = 1 :=
  ⟨(c2_bus_factor [] busExPages).2 (by with_unfolding_all decide),
   by with_unfolding_all decide⟩

/-! ### C3 -/

/-- One page, used for the two-captures experiment. -/
def detPages : List Page := [mkPage "1" ⟨2024, 6, 15⟩ ⟨2024, 6, 20⟩ "a" "a"]

/-- One user, used for the two-captures experiment. -/
def detUsers : Users := [("a", uRec "A")]

set_option maxRecDepth 100000 in
/-- C3 counterexample: the reference instant is captured twice (line 59
in `_prepare_dataframe` and line 163 in `_analyze_growth`); with the
first capture held fixed, varying the second changes the output, so not
every time-relative computation uses one single captured instant. -/
theorem c3_counterexample :
    runAll defaultConfig detUsers detPages ⟨2025, 6, 1⟩ ⟨2026, 6, 1⟩ ≠
      runAll defaultConfig detUsers detPages ⟨2025, 6, 1⟩ ⟨2025, 6, 1⟩ := by
  with_unfolding_all decide

/-- C3 (amended): the engine is a pure function of the input and the
two captured instants: the second capture affects only the growth
category, and two runs on identical input with the same pair of
instants yield identical output. -/
theorem c3_determinism (cfg : Config) (users : Users) (pages : List Page)
    (t1 t2 t2' : Ts) :
    (runAll cfg users pages t1 t2).summary =
      (runAll cfg users pages t1 t2').summary ∧
    (runAll cfg users pages t1 t2).users =
      (runAll cfg users pages t1 t2').users ∧
    (runAll cfg users pages t1 t2).top_creators =
      (runAll cfg users pages t1 t2').top_creators ∧
    (runAll cfg users pages t1 t2).collaboration =
      (runAll cfg users pages t1 t2').collaboration ∧
    (runAll cfg users pages t1 t2).content_health =
      (runAll cfg users pages t1 t2').content_health ∧
    (runAll cfg users pages t1 t2).costs =
      (runAll cfg users pages t1 t2').costs ∧
    (runAll cfg users pages t1 t2).structureInfo =
      (runAll cfg users pages t1 t2').structureInfo ∧
    (runAll cfg users pages t1 t2).risk =
      (runAll cfg users pages t1 t2').risk ∧
    (∀ s1 s2 s1' s2', s1 = s1' → s2 = s2' →
      runAll cfg users pages s1 s2 = runAll cfg users pages s1' s2') := by
  refine ⟨rfl, rfl, rfl, rfl, rfl, rfl, rfl, rfl, ?_⟩
  intro s1 s2 s1' s2' h1 h2
  subst h1; subst h2; rfl

/-- C3 witness: the amended theorem applied at a concrete input. -/
theorem c3_determinism_witness :
    (runAll defaultConfig detUsers detPages ⟨2025, 6, 1⟩ ⟨2026, 6, 1⟩).summary =
      (runAll defaultConfig detUsers detPages ⟨2025, 6, 1⟩ ⟨2025, 6, 1⟩).summary ∧
    runAll defaultConfig detUsers detPages ⟨2025, 6, 1⟩ ⟨2026, 6, 1⟩ =
      runAll defaultConfig detUsers detPages ⟨2025, 6, 1⟩ ⟨2026, 6, 1⟩ :=
  ⟨(c3_determinism defaultConfig detUsers detPages
      ⟨2025, 6, 1⟩ ⟨2026, 6, 1⟩ ⟨2025, 6, 1⟩).1,
   (c3_determinism defaultConfig detUsers detPages
      ⟨2025, 6, 1⟩ ⟨2026, 6, 1⟩ ⟨2025, 6, 1⟩).2.2.2.2.2.2.2.2
      ⟨2025, 6, 1⟩ ⟨2026, 6, 1⟩ ⟨2025, 6, 1⟩ ⟨2026, 6, 1⟩ rfl rfl⟩

/-! ### C4 -/

/-- Two users for the collaboration fixture. -/
def collabExUsers : Users := [("a", uRec "A"), ("b", uRec "B")]

/-- Three pages, exactly one of which is collaborated (creator differs
from last editor): the exact percentage is 100/3. -/
def collabExPages : List Page :=
  [mkPage "1" ⟨2024, 1, 1⟩ ⟨2024, 1, 2⟩ "a" "b",
   mkPage "2" ⟨2024, 1, 1⟩ ⟨2024, 1, 2⟩ "a" "a",
   mkPage "3" ⟨2024, 1, 1⟩ ⟨2024, 1, 2⟩ "b" "b"]

set_option maxRecDepth 8000 in
/-- C4 counterexample: with 1 collaborated page out of 3 the reported
percentage is 33.3 (rounded to one decimal), not the exact value 100/3,
refuting "collaboration_percentage equals collaborated_pages /
total_pages * 100 exactly". -/
theorem c4_counterexample :
    (analyzeCollaboration collabExUsers collabExPages).lookup
        "collaboration_percentage" ≠
      some (.q ((collaboratedPages collabExPages : ℚ) /
        (collabExPages.length : ℚ) * 100)) ∧
    (analyzeCollaboration collabExUsers collabExPages).lookup
        "collaboration_percentage" = some (.q (333/10)) := by
  constructor <;> with_unfolding_all decide

/-- C4 (amended): collaborated and single-owner pages partition the page
list (a page is collaborated iff its creator differs from its last
editor, by exact identifier comparison), and the reported
`collaboration_percentage` is the ratio rounded to one decimal; on an
empty page list the collaboration result has no such key at all. -/
theorem c4_collaboration (users : Users) (pages : List Page) :
    collaboratedPages pages + singleOwnerPages pages = pages.length ∧
    (pages ≠ [] →
      (analyzeCollaboration users pages).lookup "collaborated_pages" =
        some (.n (collaboratedPages pages)) ∧
      (analyzeCollaboration users pages).lookup "single_owner_pages" =
        some (.n (singleOwnerPages pages)) ∧
      (analyzeCollaboration users pages).lookup "collaboration_percentage" =
        some (.q (round1 ((collaboratedPages pages : ℚ) /
          (pages.length : ℚ) * 100)))) ∧
    (pages = [] →
      (analyzeCollaboration users pages).lookup "collaboration_percentage" =
        none) := by
  refine ⟨collab_single_partition pages, ?_, ?_⟩
  · intro hne
    match pages, hne with
    | p :: ps, _ =>
      refine ⟨rfl, rfl, ?_⟩
      show List.lookup _ _ = _
      have hpos : 0 < (p :: ps).length := List.length_pos.mpr (List.cons_ne_nil p ps)
      simp only [analyzeCollaboration, if_pos hpos]
      rfl
  · intro h; subst h; rfl

/-- C4 witness: the amended theorem applied at the concrete fixture. -/
theorem c4_collaboration_witness :
    collaboratedPages collabExPages + singleOwnerPages collabExPages =
      collabExPages.length ∧
    (analyzeCollaboration collabExUsers collabExPages).lookup
        "collaborated_pages" = some (.n (collaboratedPages collabExPages)) ∧
    (analyzeCollaboration collabExUsers collabExPages).lookup
        "single_owner_pages" = some (.n (singleOwnerPages collabExPages)) ∧
    (analyzeCollaboration collabExUsers collabExPages).lookup
        "collaboration_percentage" =
      some (.q (round1 ((collaboratedPages collabExPages : ℚ) /
        (collabExPages.length : ℚ) * 100))) :=
  ⟨(c4_collaboration collabExUsers collabExPages).1,
   (c4_collaboration collabExUsers collabExPages).2.1 (by decide)⟩

/-! ### C5 -/

/-- C5 (confirmed): the segmentation partitions the user map (the five
segment counts sum to the number of current users, on the empty branch
all of them land in `non_creators`), and a rate exactly equal to a
threshold is placed in the higher tier, thresholds tested in descending
order with `>=`. -/
theorem c5_segmentation (cfg : Config) (users : Users) (pages : List Page)
    (hpa : cfg.ACTIVE_USER_THRESHOLD < cfg.POWER_USER_THRESHOLD)
    (hao : cfg.OCCASIONAL_USER_THRESHOLD < cfg.ACTIVE_USER_THRESHOLD) :
    segTotal cfg users pages = users.length ∧
    classify cfg cfg.POWER_USER_THRESHOLD = Segment.power ∧
    classify cfg cfg.ACTIVE_USER_THRESHOLD = Segment.active ∧
    classify cfg cfg.OCCASIONAL_USER_THRESHOLD = Segment.occasional ∧
    (pages = [] → (analyzeUsers cfg users pages).lookup "non_creators" =
      some (.n users.length)) ∧
    (pages ≠ [] → (analyzeUsers cfg users pages).lookup "segments" =
      some (.strTable
        [("power_creators", segCount cfg users pages .power),
         ("active_creators", segCount cfg users pages .active),
         ("occasional_creators", segCount cfg users pages .occasional),
         ("minimal_creators", segCount cfg users pages .minimal),
         ("non_creators", segCount cfg users pages .non)])) := by
  refine ⟨segTotal_eq cfg users pages, ?_, ?_, ?_, ?_, ?_⟩
  · unfold classify
    rw [if_pos (le_refl _)]
  · unfold classify
    rw [if_neg (not_le.mpr hpa), if_pos (le_refl _)]
  · unfold classify
    rw [if_neg (not_le.mpr (lt_trans hao hpa)), if_neg (not_le.mpr hao),
      if_pos (le_refl _)]
  · intro h; subst h; rfl
  · intro hne
    match pages, hne with
    | p :: ps, _ => rfl

/-- Two users for the segmentation witness. -/
def segExUsers : Users := [("a", uRec "A"), ("b", uRec "B")]

/-- C5 witness: the theorem applied at the default configuration with a
concrete user map and an empty page list. -/
theorem c5_segmentation_witness :
    segTotal defaultConfig segExUsers [] = segExUsers.length ∧
    classify defaultConfig defaultConfig.POWER_USER_THRESHOLD = Segment.power ∧
    classify defaultConfig defaultConfig.ACTIVE_USER_THRESHOLD = Segment.active ∧
    classify defaultConfig defaultConfig.OCCASIONAL_USER_THRESHOLD =
      Segment.occasional ∧
    (([] : List Page) = [] →
      (analyzeUsers defaultConfig segExUsers []).lookup "non_creators" =
        some (.n segExUsers.length)) ∧
    (([] : List Page) ≠ [] →
      (analyzeUsers defaultConfig segExUsers []).lookup "segments" =
        some (.strTable
          [("power_creators", segCount defaultConfig segExUsers [] .power),
           ("active_creators", segCount defaultConfig segExUsers [] .active),
           ("occasional_creators", segCount defaultConfig segExUsers [] .occasional),
           ("minimal_creators", segCount defaultConfig segExUsers [] .minimal),
           ("non_creators", segCount defaultConfig segExUsers [] .non)])) :=
  c5_segmentation defaultConfig segExUsers []
    (by with_unfolding_all decide) (by with_unfolding_all decide)

/-! ### C6 -/

/-- Pages only in 2019 and 2021: calendar year 2020 is absent. -/
def gapPages : List Page :=
  [mkPage "1" ⟨2019, 3, 1⟩ ⟨2019, 3, 1⟩ "u" "u",
   mkPage "2" ⟨2021, 3, 1⟩ ⟨2021, 3, 1⟩ "u" "u",
   mkPage "3" ⟨2021, 4, 1⟩ ⟨2021, 4, 1⟩ "u" "u"]

set_option maxRecDepth 8000 in
/-- C6 counterexample: with pages only in 2019 and 2021 the yoy table
still has an entry for 2021 (computed against 2019) although calendar
year 2020 is absent from the data, refuting the "only if" direction. -/
theorem c6_counterexample :
    (yoyGrowth (annualCounts gapPages)).lookup 2021 = some 100 ∧
    (annualCounts gapPages).lookup 2020 = none := by
  constructor <;> with_unfolding_all decide

/-- C6 (amended): whenever calendar years `y - 1` and `y` are both
present, the yoy table has the claimed entry for `y` — the growth
formula rounded to one decimal — and the growth result carries the
table; but entries are produced for consecutive *present* years, so a
year whose immediately preceding calendar year is absent can still
receive an entry. -/
theorem c6_yoy (pages : List Page) (now : Ts) (y : Int) (c c' : Nat)
    (h1 : (y - 1, c) ∈ annualCounts pages)
    (h2 : (y, c') ∈ annualCounts pages) :
    (y, round1 (((c' : ℚ) - (c : ℚ)) / (c : ℚ) * 100)) ∈
      yoyGrowth (annualCounts pages) ∧
    (pages ≠ [] → (analyzeGrowth pages now).lookup "yoy_growth" =
      some (.yoyTable (yoyGrowth (annualCounts pages)))) := by
  refine ⟨yoyGrowth_mem _ (annualCounts_pairwise pages) h1 h2, ?_⟩
  intro hne
  match pages, hne with
  | p :: ps, _ => rfl

/-- Years 2020 (count 1) and 2021 (count 3). -/
def yoyExPages : List Page :=
  [mkPage "1" ⟨2020, 5, 1⟩ ⟨2020, 5, 1⟩ "u" "u",
   mkPage "2" ⟨2021, 5, 1⟩ ⟨2021, 5, 1⟩ "u" "u",
   mkPage "3" ⟨2021, 6, 1⟩ ⟨2021, 6, 1⟩ "u" "u",
   mkPage "4" ⟨2021, 7, 1⟩ ⟨2021, 7, 1⟩ "u" "u"]

set_option maxRecDepth 8000 in
/-- C6 witness: the amended theorem applied at consecutive present
years 2020 and 2021. -/
theorem c6_yoy_witness :
    ((2021 : Int), round1 (((3 : ℚ) - (1 : ℚ)) / (1 : ℚ) * 100)) ∈
      yoyGrowth (annualCounts yoyExPages) ∧
    (yoyExPages ≠ [] →
      (analyzeGrowth yoyExPages ⟨2021, 12, 1⟩).lookup "yoy_growth" =
        some (.yoyTable (yoyGrowth (annualCounts yoyExPages)))) :=
  c6_yoy yoyExPages ⟨2021, 12, 1⟩ 2021 1 3
    (by with_unfolding_all decide) (by with_unfolding_all decide)

/-! ### C7 -/

/-- One page created long before the trailing window. -/
def staleOnlyPages : List Page :=
  [mkPage "1" ⟨2020, 1, 15⟩ ⟨2020, 2, 1⟩ "u" "u"]

set_option maxRecDepth 8000 in
/-- C7 counterexample: the page list is non-empty but nothing was
created in the trailing 12 months; the mean of the empty monthly series
is NaN, not 0, and NaN is what the growth result stores. -/
theorem c7_counterexample :
    staleOnlyPages ≠ [] ∧
    avgMonthlyPages staleOnlyPages ⟨2025, 5, 1⟩ = none ∧
    (analyzeGrowth staleOnlyPages ⟨2025, 5, 1⟩).lookup "avg_monthly_pages" =
      some .nan := by
  refine ⟨?_, ?_, ?_⟩ <;> with_unfolding_all decide

/-- C7 (amended): `avg_monthly_pages` is the arithmetic mean of the
per-month creation counts over the months present in the trailing
window — equivalently total recent pages over distinct recent months —
rounded to one decimal; when the window is empty while the page list is
not, the value is NaN (undefined), not 0. -/
theorem c7_avg_monthly (pages : List Page) (now : Ts) :
    (pages ≠ [] → monthlyCounts pages now = [] →
      avgMonthlyPages pages now = none ∧
      (analyzeGrowth pages now).lookup "avg_monthly_pages" = some .nan) ∧
    (monthlyCounts pages now ≠ [] →
      avgMonthlyPages pages now =
        some (round1 (((recentPages pages now).length : ℚ) /
          ((monthlyCounts pages now).length : ℚ)))) := by
  constructor
  · intro hne hmc
    match pages, hne with
    | p :: ps, _ =>
      have havg : avgMonthlyPages (p :: ps) now = none := by
        simp only [avgMonthlyPages]
        rw [if_pos hmc]
      refine ⟨havg, ?_⟩
      calc (analyzeGrowth (p :: ps) now).lookup "avg_monthly_pages"
          = some (match avgMonthlyPages (p :: ps) now with
              | none => JVal.nan | some a => JVal.q a) := rfl
      _ = some JVal.nan := by rw [havg]
  · intro hmc
    match pages with
    | [] => exact absurd rfl hmc
    | p :: ps =>
      simp only [avgMonthlyPages]
      rw [if_neg hmc, monthlyCounts_sum]

/-- One recent page for the C7 witness. -/
def recentExPages : List Page :=
  [mkPage "1" ⟨2025, 4, 10⟩ ⟨2025, 4, 20⟩ "u" "u"]

set_option maxRecDepth 8000 in
/-- C7 witness: the amended theorem applied where the window holds one
page in one month. -/
theorem c7_avg_monthly_witness :
    avgMonthlyPages recentExPages ⟨2025, 5, 1⟩ =
      some (round1 (((recentPages recentExPages ⟨2025, 5, 1⟩).length : ℚ) /
        ((monthlyCounts recentExPages ⟨2025, 5, 1⟩).length : ℚ))) :=
  (c7_avg_monthly recentExPages ⟨2025, 5, 1⟩).2 (by with_unfolding_all decide)

/-! ### C8 -/

/-- A configuration with `STALE_THRESHOLD_DAYS` lowered to 100 days. -/
def staleCfg : Config :=
  { STALE_THRESHOLD_DAYS := 100, VERY_STALE_THRESHOLD_DAYS := 400 }

/-- One page last edited 200 days before the reference instant. -/
def staleExPages : List Page :=
  [mkPage "1" ⟨2024, 1, 1⟩ ⟨2024, 10, 14⟩ "a" "a"]

/-- Reference instant for the staleness fixture. -/
def staleExNow : Ts := ⟨2025, 5, 2⟩

set_option maxRecDepth 8000 in
/-- C8: `_analyze_content_health` ignores the configured thresholds:
with `stale_days` configured to 100 and a page 200 days old, counting
against the configured threshold gives 1, but the code compares against
the hard-coded literal 365 and reports `stale_pages = 0`. -/
theorem c8_code_eval :
    staleCfg.STALE_THRESHOLD_DAYS = 100 ∧
    daysSinceEdit staleExNow (mkPage "1" ⟨2024, 1, 1⟩ ⟨2024, 10, 14⟩ "a" "a")
      = 200 ∧
    (staleExPages.filter (fun p =>
      staleCfg.STALE_THRESHOLD_DAYS ≤ daysSinceEdit staleExNow p)).length = 1 ∧
    stalePagesCount staleExPages staleExNow = 0 ∧
    (analyzeContentHealth staleExPages staleExNow).lookup "stale_pages" =
      some (.n 0) := by
  refine ⟨rfl, ?_, ?_, ?_, ?_⟩ <;> with_unfolding_all decide

/-! ### C9 -/

/-- C9 (confirmed): a page whose creator id is absent from the user map
resolves to the display name "Unknown", is excluded from the per-user
collaboration entries (which list exactly the user-map keys) and from
segmentation (whose counts sum over the user map only), while the page
still counts toward `total_pages` and the staleness distribution. -/
theorem c9_missing_reference (cfg : Config) (users : Users)
    (pages : List Page) (pg : Page) (now : Ts)
    (hmem : pg ∈ pages) (habs : users.lookup pg.created_by = none) :
    userName users pg.created_by = "Unknown" ∧
    (collabResults users pages).map (fun e => e.user_id) =
      users.map (fun u => u.1) ∧
    pg.created_by ∉ (collabResults users pages).map (fun e => e.user_id) ∧
    segTotal cfg users pages = users.length ∧
    (analyzeSummary cfg users pages now).lookup "total_pages" =
      some (.n pages.length) ∧
    ((stalenessDistribution pages now).map (fun e => e.2)).sum =
      pages.length := by
  have hkeys : (collabResults users pages).map (fun e => e.user_id) =
      users.map (fun u => u.1) := by
    unfold collabResults
    rw [List.map_map]
    rfl
  have hdist : ((stalenessDistribution pages now).map (fun e => e.2)).sum =
      pages.length := by
    unfold stalenessDistribution
    have h := sum_counts_dedup
      (pages.map (fun p => categorizeStaleness (daysSinceEdit now p)))
    rw [List.length_map] at h
    exact h
  refine ⟨by simp [userName, habs], hkeys, ?_,
    segTotal_eq cfg users pages, rfl, hdist⟩
  rw [hkeys]
  exact not_mem_keys_of_lookup_none users pg.created_by habs

/-- User map with a single user "a". -/
def ghostUsers : Users := [("a", uRec "A")]

/-- Two pages, one created by an id absent from the user map. -/
def ghostPages : List Page :=
  [mkPage "1" ⟨2024, 1, 1⟩ ⟨2024, 2, 1⟩ "ghost" "a",
   mkPage "2" ⟨2024, 1, 1⟩ ⟨2024, 1, 5⟩ "a" "a"]

/-- C9 witness: the theorem applied at the page created by the deleted
user "ghost". -/
theorem c9_missing_reference_witness :
    userName ghostUsers (mkPage "1" ⟨2024, 1, 1⟩ ⟨2024, 2, 1⟩ "ghost" "a").created_by
      = "Unknown" ∧
    (collabResults ghostUsers ghostPages).map (fun e => e.user_id) =
      ghostUsers.map (fun u => u.1) ∧
    (mkPage "1" ⟨2024, 1, 1⟩ ⟨2024, 2, 1⟩ "ghost" "a").created_by ∉
      (collabResults ghostUsers ghostPages).map (fun e => e.user_id) ∧
    segTotal defaultConfig ghostUsers ghostPages = ghostUsers.length ∧
    (analyzeSummary defaultConfig ghostUsers ghostPages ⟨2025, 1, 1⟩).lookup
      "total_pages" = some (.n ghostPages.length) ∧
    ((stalenessDistribution ghostPages ⟨2025, 1, 1⟩).map (fun e => e.2)).sum =
      ghostPages.length :=
  c9_missing_reference defaultConfig ghostUsers ghostPages
    (mkPage "1" ⟨2024, 1, 1⟩ ⟨2024, 2, 1⟩ "ghost" "a") ⟨2025, 1, 1⟩
    (by decide) (by decide)

/-! ### C10 -/

/-- C10 (confirmed): the users and costs categories expose different key
sets on empty versus non-empty page lists, with exactly the key lists of
the two branches of `_analyze_users` and `_analyze_costs`. -/
theorem c10_key_sets (cfg : Config) (users : Users) (pages : List Page)
    (hne : pages ≠ []) :
    (analyzeUsers cfg users []).map (fun e => e.1) =
      ["power_creators", "active_creators", "occasional_creators",
       "minimal_creators", "non_creators"] ∧
    (analyzeUsers cfg users pages).map (fun e => e.1) =
      ["segments", "pages_by_segment", "active_creator_percentage"] ∧
    (analyzeCosts cfg users []).map (fun e => e.1) =
      ["annual_cost", "cost_per_active_user", "cost_by_segment",
       "wasted_licenses", "wasted_cost", "roi_estimate"] ∧
    (analyzeCosts cfg users pages).map (fun e => e.1) =
      ["cost_by_segment", "total_annual_cost", "cost_per_active_creator",
       "wasted_spend_annual", "wasted_spend_percentage",
       "total_creation_value", "roi_percentage", "monthly_cost_per_user",
       "blended_hourly_rate"] := by
  match pages, hne with
  | p :: ps, _ => exact ⟨rfl, rfl, rfl, rfl⟩

/-- C10 witness: the theorem applied at a concrete non-empty input. -/
theorem c10_key_sets_witness :
    (analyzeUsers defaultConfig ghostUsers []).map (fun e => e.1) =
      ["power_creators", "active_creators", "occasional_creators",
       "minimal_creators", "non_creators"] ∧
    (analyzeUsers defaultConfig ghostUsers ghostPages).map (fun e => e.1) =
      ["segments", "pages_by_segment", "active_creator_percentage"] ∧
    (analyzeCosts defaultConfig ghostUsers []).map (fun e => e.1) =
      ["annual_cost", "cost_per_active_user", "cost_by_segment",
       "wasted_licenses", "wasted_cost", "roi_estimate"] ∧
    (analyzeCosts defaultConfig ghostUsers ghostPages).map (fun e => e.1) =
      ["cost_by_segment", "total_annual_cost", "cost_per_active_creator",
       "wasted_spend_annual", "wasted_spend_percentage",
       "total_creation_value", "roi_percentage", "monthly_cost_per_user",
       "blended_hourly_rate"] :=
  c10_key_sets defaultConfig ghostUsers ghostPages (by decide)

end NUI
